import Mathlib

/-!
Verification of the durable step-orchestration examples in this repository.

Each Python module relevant to the verified claims is shallowly embedded:
pure functions become Lean functions, mutation of `self.state` becomes
explicit state passing, the module-level counter and the checkpoint file
become explicit parameters, and `datetime.now()` becomes an explicit
timestamp argument.
-/

/- ------------------------------------------------------------------
06_hitl_flow_feedback.py
------------------------------------------------------------------ -/

/-- State for the proposal workflow (`ProposalState` in
`06_hitl_flow_feedback.py`): pydantic model with defaults
`topic = "AI Agent Framework Adoption"`, `draft = ""`, `feedback = ""`,
`status = "pending"`, `revision_count = 0`. -/
structure ProposalState where
  topic : String := "AI Agent Framework Adoption"
  draft : String := ""
  feedback : String := ""
  status : String := "pending"
  revision_count : Nat := 0
deriving Repr, DecidableEq

/-- The draft template produced by `ProposalFlow.generate_proposal`. -/
def draftText (topic : String) (revision_count : Nat) : String :=
  "\nProposal: " ++ topic ++ "\n============================\n\n" ++
  "Executive Summary:\nThis proposal outlines a comprehensive approach to " ++
  topic ++ ".\n\nObjectives:\n1. Primary goal related to " ++ topic ++
  "\n2. Secondary objectives\n3. Success metrics\n\nTimeline:\n" ++
  "- Phase 1: Planning and Research\n- Phase 2: Implementation\n" ++
  "- Phase 3: Review and Iteration\n\nBudget Estimate:\n" ++
  "[To be determined based on scope]\n\nRevision #" ++
  toString revision_count ++ "\n"

/-- `ProposalFlow.generate_proposal`: writes the initial draft into the
state. -/
def generate_proposal (s : ProposalState) : ProposalState :=
  { s with draft := draftText s.topic s.revision_count }

/-- Python `str.strip()`: remove leading and trailing whitespace. -/
def pyStrip (s : String) : String :=
  ⟨((s.data.dropWhile Char.isWhitespace).reverse.dropWhile Char.isWhitespace).reverse⟩

/-- Python `str.lower()` on the ASCII letters that the flow compares
against (`"approve"` / `"reject"`). -/
def pyLower (s : String) : String :=
  ⟨s.data.map (fun c =>
    if 65 ≤ c.toNat ∧ c.toNat ≤ 90 then Char.ofNat (c.toNat + 32) else c)⟩

/-- `ProposalFlow.review_proposal`: consumes one line of human feedback
(`input().strip()`), then sets `status`/`feedback` accordingly. -/
def review_proposal (s : ProposalState) (rawFeedback : String) : ProposalState :=
  let feedback := pyStrip rawFeedback
  if pyLower feedback = "approve" then
    { s with status := "approved", feedback := "Approved by reviewer" }
  else if pyLower feedback = "reject" then
    { s with status := "rejected", feedback := "Rejected by reviewer" }
  else
    { s with feedback := feedback, status := "needs_revision" }

/-- `ProposalFlow.route_after_review`: the router. Reads only
`self.state.status` and returns a next-step label. -/
def route_after_review (s : ProposalState) : String :=
  if s.status = "approved" then "finalize"
  else if s.status = "rejected" then "handle_rejection"
  else "revise"

/-- The revised-draft template produced by `ProposalFlow.revise_proposal`
when the revision bound has not been hit. -/
def revisedDraftText (topic feedback : String) (revision_count : Nat) : String :=
  "\nProposal: " ++ topic ++ "\n============================\n" ++
  "[REVISED based on feedback: " ++ feedback ++ "]\n\n" ++
  "Executive Summary:\nThis revised proposal addresses the feedback provided.\n\n" ++
  "Objectives (Updated):\n1. Refined goal based on reviewer feedback\n" ++
  "2. Additional considerations\n3. Updated success metrics\n\n" ++
  "Timeline (Adjusted):\n- Phase 1: Extended planning\n" ++
  "- Phase 2: Implementation with checkpoints\n- Phase 3: Comprehensive review\n\n" ++
  "Budget Estimate:\n[Updated based on revised scope]\n\nRevision #" ++
  toString revision_count ++ "\n"

/-- What `revise_proposal` does after incrementing the counter: either it
auto-approves and returns the `"finalize"` label, or it rewrites the draft
and goes back to `review_proposal`. -/
inductive ReviseOutcome where
  | autoFinalize : ReviseOutcome
  | backToReview : ReviseOutcome
deriving Repr, DecidableEq

/-- `ProposalFlow.revise_proposal`: increments `revision_count`; when the
incremented count is `>= 3` it sets `status = "approved"` and returns the
`"finalize"` label, otherwise it rewrites the draft from the feedback and
returns control to `review_proposal`. -/
def revise_proposal (s : ProposalState) : ProposalState × ReviseOutcome :=
  let s1 := { s with revision_count := s.revision_count + 1 }
  if 3 ≤ s1.revision_count then
    ({ s1 with status := "approved" }, ReviseOutcome.autoFinalize)
  else
    ({ s1 with draft := revisedDraftText s1.topic s1.feedback s1.revision_count },
     ReviseOutcome.backToReview)

/-- `ProposalFlow.finalize_proposal`: marks the proposal finalized and
returns the final report text. -/
def finalize_proposal (s : ProposalState) : ProposalState × String :=
  let s1 := { s with status := "finalized" }
  (s1, "\nFINAL PROPOSAL\n==============\n" ++ s1.draft ++
       "\n\nStatus: APPROVED\nReviewed and approved for implementation.\n")

/-- `ProposalFlow.handle_rejection`: returns the rejection report text,
leaving the state as is. -/
def handle_rejection (s : ProposalState) : ProposalState × String :=
  (s, "\nPROPOSAL REJECTED\n=================\nTopic: " ++ s.topic ++
      "\nFeedback: " ++ s.feedback ++
      "\n\nThe proposal has been rejected and will not proceed.\n")

/-- How a `ProposalFlow().kickoff()` run ends under CrewAI dispatch. -/
inductive FlowEnd where
  | finalized : FlowEnd
  | rejectedEnd : FlowEnd
  | endedAfterRevise : FlowEnd
  | blocked : FlowEnd
deriving Repr, DecidableEq

/-- `ProposalFlow().kickoff()` under the framework's actual dispatch.
The engine runs the `@start` method `generate_proposal`, then dispatches
`review_proposal` (its `@listen`er), consuming one feedback line; because
`route_after_review` is declared `@router(review_proposal)`, the router
fires on that framework-dispatched completion and its label triggers the
matching `@listen("...")` method.  `revise_proposal`, however, loops back
with a plain inline `self.review_proposal()` call — not a dispatch — so
that call only runs the method body (consuming one more feedback line)
without re-firing the router; and no method listens to `revise_proposal`
or to the `"finalize"` string it returns as a plain value, so the flow
ends once `revise_proposal` completes.  The result is the final state,
how the run ended, and the feedback lines never consumed. -/
def proposalFlowKickoff (feedbacks : List String) :
    ProposalState × FlowEnd × List String :=
  let s0 := generate_proposal {}
  match feedbacks with
  | [] => (s0, FlowEnd.blocked, [])
  | fb1 :: rest =>
    let s1 := review_proposal s0 fb1
    let label := route_after_review s1
    if label = "finalize" then ((finalize_proposal s1).1, FlowEnd.finalized, rest)
    else if label = "handle_rejection" then
      ((handle_rejection s1).1, FlowEnd.rejectedEnd, rest)
    else
      match revise_proposal s1 with
      | (s2, ReviseOutcome.autoFinalize) => (s2, FlowEnd.endedAfterRevise, rest)
      | (s2, ReviseOutcome.backToReview) =>
        match rest with
        | [] => (s2, FlowEnd.blocked, [])
        | fb2 :: rest2 =>
          (review_proposal s2 fb2, FlowEnd.endedAfterRevise, rest2)

/- ------------------------------------------------------------------
08_durable_resume.py
------------------------------------------------------------------ -/

/-- One element of `state.results` in `08_durable_resume.py`: each phase
appends a dict with a `phase`, an `action`, a `timestamp` and
phase-specific extra fields (modelled as key/value strings). -/
structure ResultEntry where
  phase : Nat
  action : String
  timestamp : String
  extra : List (String × String)
deriving Repr, DecidableEq

/-- `LongRunningState` in `08_durable_resume.py`: pydantic model with the
listed defaults. -/
structure LongRunningState where
  flow_id : String := ""
  current_phase : Nat := 0
  total_phases : Nat := 5
  results : List ResultEntry := []
  is_complete : Bool := false
  started_at : String := ""
  last_checkpoint : String := ""
  interrupted : Bool := false
deriving Repr, DecidableEq

/-- The checkpoint record that `ResumableWorkflow.save_checkpoint` writes:
`checkpoint = \x7b"flow_id": ..., "state": self.state.model_dump()\x7d`. -/
structure Checkpoint where
  flow_id : String
  state : LongRunningState
deriving Repr, DecidableEq

/-- `ResumableWorkflow.save_checkpoint`, state part: stamps
`state.last_checkpoint` with `datetime.now().isoformat()` (the explicit
`now` argument) and produces the record written to `STATE_FILE`.  The
return value is the updated in-memory state together with the persisted
record (the file is fully overwritten with this record). -/
def save_checkpoint (s : LongRunningState) (now : String) :
    LongRunningState × Checkpoint :=
  let s1 := { s with last_checkpoint := now }
  (s1, { flow_id := s1.flow_id, state := s1 })

/-- Serialization of a checkpoint record (`json.dump(checkpoint, f)`).
Only the properties relevant to torn-write analysis are used: the encoding
is a nonempty string determined by the record. -/
def serializeCheckpoint (cp : Checkpoint) : String :=
  ⟨Char.ofNat 123 ::
    ("\"flow_id\": \"" ++ cp.flow_id ++ "\", \"state\": \"" ++
     cp.state.flow_id ++ " " ++ toString cp.state.current_phase ++ " " ++
     cp.state.last_checkpoint ++ "\"" ++ String.singleton (Char.ofNat 125)).data⟩

/-- The file write in `save_checkpoint`:
`with open(STATE_FILE, "w") as f: json.dump(checkpoint, f)`.
Opening with mode `"w"` truncates the file at once; the bytes of the new
record are then written in order.  A crash after `k` bytes therefore
leaves the file holding the first `k` bytes of the new record — the
previous content is already gone.  `crashAt = none` is the crash-free run. -/
def writeFileCrash (content : String) (crashAt : Option Nat)
    (_old : Option String) : Option String :=
  match crashAt with
  | none => some content
  | some k => some ⟨content.data.take k⟩

/-- `save_checkpoint` including its file effect: update the state, then
truncate-and-write the serialized record over the previous file content,
possibly crashing mid-write. -/
def save_checkpoint_file (s : LongRunningState) (now : String)
    (old : Option String) (crashAt : Option Nat) :
    LongRunningState × Option String :=
  let (s1, cp) := save_checkpoint s now
  (s1, writeFileCrash (serializeCheckpoint cp) crashAt old)

/-- `ResumableWorkflow.phase_0_initialize`: assigns a fresh `flow_id` /
`started_at` only when `flow_id` is still empty, appends the phase-0
result entry, and checkpoints. -/
def phase_0_initialize (s : LongRunningState) (now : String) : LongRunningState :=
  let s1 :=
    if s.flow_id = "" then
      { s with flow_id := "resume_" ++ now, started_at := now, current_phase := 0 }
    else s
  let s2 := { s1 with results := s1.results ++ [⟨0, "initialize", now, []⟩] }
  (save_checkpoint s2 now).1

/-- `ResumableWorkflow.phase_1_data_collection`. -/
def phase_1_data_collection (s : LongRunningState) (now : String) : LongRunningState :=
  let s1 := { s with current_phase := 1 }
  let s2 := { s1 with
    results := s1.results ++ [⟨1, "data_collection", now, [("records_collected", "500")]⟩] }
  (save_checkpoint s2 now).1

/-- `ResumableWorkflow.phase_2_validation`. -/
def phase_2_validation (s : LongRunningState) (now : String) : LongRunningState :=
  let s1 := { s with current_phase := 2 }
  let s2 := { s1 with
    results := s1.results ++
      [⟨2, "validation", now, [("valid_records", "485"), ("invalid_records", "15")]⟩] }
  (save_checkpoint s2 now).1

/-- `ResumableWorkflow.phase_3_processing`, uninterrupted run: three
in-loop checkpoints, then the phase-3 result entry is appended (with no
checkpoint after it). -/
def phase_3_processing (s : LongRunningState) (now : String) : LongRunningState :=
  let s1 := { s with current_phase := 3 }
  let s2 := (save_checkpoint s1 now).1
  let s3 := (save_checkpoint s2 now).1
  let s4 := (save_checkpoint s3 now).1
  { s4 with results := s4.results ++ [⟨3, "processing", now, [("batches_processed", "3")]⟩] }

/-- `ResumableWorkflow.phase_4_aggregation`. -/
def phase_4_aggregation (s : LongRunningState) (now : String) : LongRunningState :=
  let s1 := { s with current_phase := 4 }
  let s2 := { s1 with
    results := s1.results ++
      [⟨4, "aggregation", now, [("aggregated_results", "mean 42.0 count 485")]⟩] }
  (save_checkpoint s2 now).1

/-- `ResumableWorkflow.phase_5_finalize`. -/
def phase_5_finalize (s : LongRunningState) (now : String) : LongRunningState :=
  let s1 := { s with current_phase := 5, is_complete := true }
  let s2 := { s1 with results := s1.results ++ [⟨5, "finalize", now, []⟩] }
  (save_checkpoint s2 now).1

/-- `flow.kickoff()` for `ResumableWorkflow`: the six phases run in their
`@start` / `@listen` chain order, starting from the `@start` method
`phase_0_initialize`.  Each phase receives the wall-clock timestamp of its
invocation. -/
def resumableKickoff (s : LongRunningState)
    (t0 t1 t2 t3 t4 t5 : String) : LongRunningState :=
  phase_5_finalize
    (phase_4_aggregation
      (phase_3_processing
        (phase_2_validation
          (phase_1_data_collection ( phase_0_initialize s t0) t1) t2) t3) t4) t5

/-- The `--resume` branch of `main` in `08_durable_resume.py`:
`load_checkpoint()` returns the stored record (or `None`); a missing
record or a `flow_id` mismatch prints an error and calls `sys.exit(1)`
before any step runs; otherwise the state is restored with
`interrupted = False` and `flow.kickoff()` runs, after which `main`
returns normally (process exit code 0).  The result is the final state
(when a run happened) paired with the process exit code. -/
def main_resume (stored : Option Checkpoint) (requested : String)
    (t0 t1 t2 t3 t4 t5 : String) : Option LongRunningState × Nat :=
  match stored with
  | none => (none, 1)
  | some cp =>
    if cp.flow_id = requested then
      let restored := { cp.state with interrupted := false }
      (some (resumableKickoff restored t0 t1 t2 t3 t4 t5), 0)
    else (none, 1)

/- ------------------------------------------------------------------
04_tool_error_handling.py
------------------------------------------------------------------ -/

/-- A single-quote character, used in the flaky tool's success message. -/
def apos : String := String.singleton (Char.ofNat 39)

/-- The success message of `flaky_tool`
(`f"Operation ...  completed successfully on attempt #..."`). -/
def flakySuccessMsg (operation : String) (c : Nat) : String :=
  "Operation " ++ apos ++ operation ++ apos ++
    " completed successfully on attempt #" ++ toString c

/-- `flaky_tool` in `04_tool_error_handling.py`.  The module holds
`call_counter = \x7b"count": 0\x7d` at module level; every invocation first
increments this shared counter, then raises `ConnectionError` iff the
incremented counter equals 1.  The explicit `counter` argument is the
value of `call_counter["count"]` before the call; the result pairs the
counter after the call with either the raised error message or the
returned string. -/
def flaky_tool (counter : Nat) (operation : String) : Nat × Except String String :=
  let c := counter + 1
  if c = 1 then
    (c, Except.error "Simulated network error on first attempt!")
  else
    (c, Except.ok (flakySuccessMsg operation c))

/-- Whether a `flaky_tool` invocation raised. -/
def flakyRaises (r : Nat × Except String String) : Bool :=
  match r.2 with
  | Except.error _ => true
  | Except.ok _ => false

/-- The division-by-zero message returned by `SafeDivisionTool._run`. -/
def divisionByZeroMsg : String :=
  "Error: Division by zero is not allowed. Please provide a non-zero divisor."

/-- The success message of `SafeDivisionTool._run`
(`f"\x7bdividend\x7d / \x7bdivisor\x7d = \x7bresult\x7d"`). -/
def divisionReport (dividend divisor result : ℚ) : String :=
  toString dividend ++ " / " ++ toString divisor ++ " = " ++ toString result

/-- `SafeDivisionTool._run`: returns an error message string when the
divisor is zero and the formatted quotient otherwise; it has no raising
path.  Python floats are modelled as rationals — the branch structure
depends only on the `divisor == 0` test. -/
def SafeDivisionTool_run (dividend divisor : ℚ) : String :=
  if divisor = 0 then divisionByZeroMsg
  else divisionReport dividend divisor (dividend / divisor)

/- ------------------------------------------------------------------
13_production_concerns.py — AuditLogger
------------------------------------------------------------------ -/

/-- A JSON object, modelled as an insertion-ordered association list with
unique keys, matching a Python `dict`. -/
abbrev PyDict := List (String × String)

/-- Python `d[k] = v` semantics inside a dict literal: a repeated key
updates the stored value in place (keeping its original position), a new
key is appended. -/
def dictInsert (d : PyDict) (k v : String) : PyDict :=
  if d.any (fun p => p.1 = k) then
    d.map (fun p => if p.1 = k then (k, v) else p)
  else d ++ [(k, v)]

/-- Python `d.get(k)`. -/
def dictGet (d : PyDict) (k : String) : Option String :=
  (d.find? (fun p => p.1 = k)).map Prod.snd

/-- The entry built by `AuditLogger.log`:
`\x7b"timestamp": ..., "session_id": ..., "event_type": event_type, **data\x7d`
— the literal starts with the three fixed fields and then merges `data`
with Python dict-literal semantics. -/
def makeEntry (now session_id event_type : String) (data : PyDict) : PyDict :=
  data.foldl (fun acc p => dictInsert acc p.1 p.2)
    [("timestamp", now), ("session_id", session_id), ("event_type", event_type)]

/-- The audit log file, `none` when `logs/audit.jsonl` does not exist,
otherwise the list of JSONL entries in file order. -/
abbrev AuditFile := Option (List PyDict)

/-- `AuditLogger.log`: appends the entry to the file (mode `"a"` creates
the file when missing) and returns the entry. -/
def AuditLogger_log (file : AuditFile) (now session_id event_type : String)
    (data : PyDict) : AuditFile × PyDict :=
  let entry := makeEntry now session_id event_type data
  (some (file.getD [] ++ [entry]), entry)

/-- `AuditLogger.get_logs`: `[]` when the file does not exist; otherwise
the entries whose `"event_type"` field equals the filter, in file order
(all entries when the filter is `None`). -/
def AuditLogger_get_logs (file : AuditFile) (event_type : Option String) :
    List PyDict :=
  match file with
  | none => []
  | some entries =>
    entries.filter (fun e =>
      match event_type with
      | none => true
      | some et => dictGet e "event_type" = some et)

/-- One call to `AuditLogger.log`: its timestamp, its `event_type`
argument and its `data` dict (`session_id` is fixed per logger). -/
structure LogCall where
  now : String
  event_type : String
  data : PyDict
deriving Repr, DecidableEq

/-- A sequence of `AuditLogger.log` calls applied to a file state. -/
def logAll (session_id : String) (file : AuditFile) : List LogCall → AuditFile
  | [] => file
  | c :: rest =>
    logAll session_id (AuditLogger_log file c.now session_id c.event_type c.data).1 rest

/- ------------------------------------------------------------------
07_durable_basic.py — WorkflowState default containers
------------------------------------------------------------------ -/

/-- A heap of Python container objects: the dict objects and list objects
allocated so far.  References are indices into these tables. -/
structure Heap where
  dicts : List PyDict
  lists : List (List PyDict)
deriving Repr, DecidableEq

/-- `WorkflowState` in `07_durable_basic.py`, with its mutable `data` /
`history` fields represented as references into the heap.  The scalar
fields carry their pydantic defaults. -/
structure WorkflowStateRef where
  workflow_id : String := ""
  current_step : String := "init"
  dataRef : Nat
  historyRef : Nat
  created_at : String := ""
  updated_at : String := ""
deriving Repr, DecidableEq

/-- `WorkflowState()` with all defaults: pydantic copies each mutable
default (`data: dict = \x7b\x7d`, `history: list = []`) into a fresh
container object for every instantiation, so the constructor allocates a
new empty dict and a new empty list on the heap. -/
def WorkflowState_new (h : Heap) : Heap × WorkflowStateRef :=
  let dRef := h.dicts.length
  let hRef := h.lists.length
  ({ dicts := h.dicts ++ [[]], lists := h.lists ++ [[]] },
   { dataRef := dRef, historyRef := hRef })

/-- `self.state.history.append(entry)`: in-place mutation of the list
object that `historyRef` points to. -/
def heapAppendHistory (h : Heap) (r : Nat) (e : PyDict) : Heap :=
  { h with lists := h.lists.set r (h.lists.getD r [] ++ [e]) }

/-- `self.state.data[k] = v`: in-place mutation of the dict object that
`dataRef` points to. -/
def heapSetData (h : Heap) (r : Nat) (k v : String) : Heap :=
  { h with dicts := h.dicts.set r (dictInsert (h.dicts.getD r []) k v) }

/-- Read the list object behind a history reference. -/
def readHistory (h : Heap) (r : Nat) : List PyDict := h.lists.getD r []

/-- Read the dict object behind a data reference. -/
def readData (h : Heap) (r : Nat) : PyDict := h.dicts.getD r []

/- ------------------------------------------------------------------
Concrete instances used in counterexamples and witnesses
------------------------------------------------------------------ -/

/-- The six result entries appended by one full pass of
`ResumableWorkflow`, phase 0 through phase 5. -/
def rerunEntries (t0 t1 t2 t3 t4 t5 : String) : List ResultEntry :=
  [⟨0, "initialize", t0, []⟩,
   ⟨1, "data_collection", t1, [("records_collected", "500")]⟩,
   ⟨2, "validation", t2, [("valid_records", "485"), ("invalid_records", "15")]⟩,
   ⟨3, "processing", t3, [("batches_processed", "3")]⟩,
   ⟨4, "aggregation", t4, [("aggregated_results", "mean 42.0 count 485")]⟩,
   ⟨5, "finalize", t5, []⟩]

/-- How many times the entry step `phase_0_initialize` has recorded its
result entry in the state, `0` when no run happened. -/
def countInitialize (o : Option LongRunningState × Nat) : Nat :=
  match o.1 with
  | none => 0
  | some s => s.results.countP (fun e => e.phase == 0 && e.action == "initialize")

/-- A checkpoint persisted mid-run: phases 0–2 are complete,
`current_phase = 2`. -/
def cpMidRun : Checkpoint :=
  { flow_id := "f1",
    state :=
      { flow_id := "f1",
        current_phase := 2,
        results :=
          [⟨0, "initialize", "a0", []⟩,
           ⟨1, "data_collection", "a1", [("records_collected", "500")]⟩,
           ⟨2, "validation", "a2", [("valid_records", "485"), ("invalid_records", "15")]⟩],
        started_at := "s0",
        last_checkpoint := "a2" } }

/-- A previously persisted checkpoint, used to exhibit a torn write. -/
def cpPrev : Checkpoint :=
  { flow_id := "old", state := { flow_id := "old" } }

/- ------------------------------------------------------------------
Helper lemmas (shared)
------------------------------------------------------------------ -/

theorem getD_set_ne {α : Type} (l : List α) (x d : α) :
    ∀ (i j : Nat), i ≠ j → (l.set i x).getD j d = l.getD j d := by
  induction l with
  | nil => intro i j _; cases i <;> rfl
  | cons hd tl ih =>
    intro i j hij
    cases i with
    | zero =>
      cases j with
      | zero => exact absurd rfl hij
      | succ j => simp [List.set]
    | succ i =>
      cases j with
      | zero => simp [List.set]
      | succ j =>
        simp only [List.set, List.getD_cons_succ]
        exact ih i j (fun h => hij (by rw [h]))

theorem getD_set_self {α : Type} (l : List α) (x d : α) :
    ∀ (i : Nat), i < l.length → (l.set i x).getD i d = x := by
  induction l with
  | nil => intro i h; simp at h
  | cons hd tl ih =>
    intro i h
    cases i with
    | zero => rfl
    | succ i =>
      simp only [List.set, List.getD_cons_succ]
      exact ih i (by simpa using h)

theorem logAll_some (sid : String) :
    ∀ (calls : List LogCall) (l : List PyDict),
      logAll sid (some l) calls =
        some (l ++ calls.map (fun c => makeEntry c.now sid c.event_type c.data)) := by
  intro calls
  induction calls with
  | nil => intro l; simp [logAll]
  | cons c rest ih =>
    intro l
    simp only [logAll, AuditLogger_log, Option.getD_some, List.map_cons]
    rw [ih]
    simp

theorem review_proposal_revision_count (s : ProposalState) (fb : String) :
    (review_proposal s fb).revision_count = s.revision_count := by
  unfold review_proposal
  dsimp only
  split
  · rfl
  · split <;> rfl

theorem revise_proposal_revision_count (s : ProposalState) :
    (revise_proposal s).1.revision_count = s.revision_count + 1 := by
  unfold revise_proposal
  dsimp only
  split <;> rfl

/- ------------------------------------------------------------------
Claim theorems
------------------------------------------------------------------ -/

/-- Claim C2 names a behavior the code intends (`revise_proposal`
increments `revision_count` and auto-approves at 3; the class docstring
and the `main` banner promise revision "up to 3 times") but that the code
cannot exhibit: under the framework's dispatch the revise step's inline
`self.review_proposal()` call never re-fires the router and nothing
listens to `revise_proposal` or its plain-value `"finalize"` return, so
every run performs at most one revision — `revision_count` never exceeds
1, and on the failing input of three consecutive `needs_revision`
feedback lines the run ends after one revision with status
`"needs_revision"`, the third line never consumed. -/
theorem revision_loop_never_iterates :
    (∀ feedbacks : List String,
      (proposalFlowKickoff feedbacks).1.revision_count ≤ 1) ∧
    ((fun r => (r.1.revision_count, r.1.status, r.2.1, r.2.2))
        (proposalFlowKickoff ["needs more detail", "still too vague", "rework it"]) =
      (1, "needs_revision", FlowEnd.endedAfterRevise, ["rework it"])) := by
  constructor
  · intro feedbacks
    cases feedbacks with
    | nil => decide
    | cons fb1 rest =>
      have h1 : (review_proposal (generate_proposal ({} : ProposalState))
          fb1).revision_count = 0 := by
        rw [review_proposal_revision_count]; rfl
      simp only [proposalFlowKickoff]
      split
      · simp only [finalize_proposal]
        omega
      · split
        · simp only [handle_rejection]
          omega
        · split
          next s2 heq =>
            have hc := congrArg (fun p => p.1.revision_count) heq
            simp only [revise_proposal_revision_count] at hc
            simp only []
            omega
          next s2 heq =>
            have hc := congrArg (fun p => p.1.revision_count) heq
            simp only [revise_proposal_revision_count] at hc
            cases rest with
            | nil => simp only []; omega
            | cons fb2 rest2 =>
              simp only [review_proposal_revision_count]
              omega
  · decide

/-- Claim C5: the review router is pure and deterministic.  Its result
depends only on the `status` field of the state (so byte-identical states
give identical labels), and the label is `"finalize"` on `"approved"`,
`"handle_rejection"` on `"rejected"`, and `"revise"` otherwise; the model
returns only a label, mirroring that the source reads `self.state.status`
and mutates nothing. -/
theorem route_after_review_pure :
    ∀ s t : ProposalState,
      route_after_review s = route_after_review s ∧
      (s.status = t.status → route_after_review s = route_after_review t) ∧
      (s.status = "approved" → route_after_review s = "finalize") ∧
      (s.status = "rejected" → route_after_review s = "handle_rejection") ∧
      (s.status ≠ "approved" → s.status ≠ "rejected" →
        route_after_review s = "revise") := by
  intro s t
  refine ⟨rfl, ?_, ?_, ?_, ?_⟩
  · intro h; simp [route_after_review, h]
  · intro h; simp [route_after_review, h]
  · intro h; simp [route_after_review, h]
  · intro h1 h2; simp [route_after_review, h1, h2]

/-- Witness for C5 at concrete states. -/
theorem route_after_review_pure_witness :
    route_after_review ({ status := "approved" } : ProposalState) = "finalize" ∧
      route_after_review ({ status := "rejected" } : ProposalState) =
        "handle_rejection" :=
  ⟨(route_after_review_pure { status := "approved" } { status := "approved" }).2.2.1 rfl,
   (route_after_review_pure { status := "rejected" } { status := "rejected" }).2.2.2.1 rfl⟩

/-- Claim C1 is false on the code: resuming from a checkpoint whose
current step is phase 2 re-executes the entry step.  After `main --resume`
on a mid-run checkpoint the final state holds two `initialize` result
entries — one from the original run recorded in the checkpoint and a
fresh one appended by the re-executed `phase_0_initialize`. -/
theorem resume_reruns_entry_step_cex :
    countInitialize
      (main_resume (some cpMidRun) "f1" "t0" "t1" "t2" "t3" "t4" "t5") = 2 := by
  decide

/-- Claim C1 (amended): `--resume` on a matching checkpoint restores the
snapshot but re-runs the whole chain from the entry step
`phase_0_initialize` (the in-code note says a full resume would need the
framework's persistence mechanism).  Because the restored `flow_id` is
nonempty, identity and `started_at` are preserved; every phase re-runs and
appends a fresh result entry, and the run terminates with
`current_phase = 5` and `is_complete = true`, exiting 0. -/
theorem resume_restarts_from_entry :
    ∀ (cp : Checkpoint) (t0 t1 t2 t3 t4 t5 : String),
      cp.state.flow_id ≠ "" →
      main_resume (some cp) cp.flow_id t0 t1 t2 t3 t4 t5 =
        (some (resumableKickoff { cp.state with interrupted := false }
          t0 t1 t2 t3 t4 t5), 0) ∧
      (resumableKickoff { cp.state with interrupted := false }
          t0 t1 t2 t3 t4 t5).flow_id = cp.state.flow_id ∧
      (resumableKickoff { cp.state with interrupted := false }
          t0 t1 t2 t3 t4 t5).started_at = cp.state.started_at ∧
      (resumableKickoff { cp.state with interrupted := false }
          t0 t1 t2 t3 t4 t5).current_phase = 5 ∧
      (resumableKickoff { cp.state with interrupted := false }
          t0 t1 t2 t3 t4 t5).is_complete = true ∧
      (resumableKickoff { cp.state with interrupted := false }
          t0 t1 t2 t3 t4 t5).results =
        cp.state.results ++ rerunEntries t0 t1 t2 t3 t4 t5 := by
  intro cp t0 t1 t2 t3 t4 t5 h
  refine ⟨by simp [main_resume], ?_, ?_, ?_, ?_, ?_⟩ <;>
    simp [resumableKickoff, phase_0_initialize, phase_1_data_collection,
      phase_2_validation, phase_3_processing, phase_4_aggregation,
      phase_5_finalize, save_checkpoint, rerunEntries, h]

/-- Witness for the amended C1 at the concrete mid-run checkpoint. -/
theorem resume_restarts_from_entry_witness :
    (resumableKickoff { cpMidRun.state with interrupted := false }
      "t0" "t1" "t2" "t3" "t4" "t5").current_phase = 5 :=
  (resume_restarts_from_entry cpMidRun "t0" "t1" "t2" "t3" "t4" "t5"
    (by decide)).2.2.2.1

/-- Claim C3 is false on the code: `save_checkpoint` writes with
`open(STATE_FILE, "w")`, which truncates in place.  A crash immediately
after opening (0 bytes written) leaves the file empty — the previously
stored record `serializeCheckpoint cpPrev` is gone, not intact. -/
theorem checkpoint_write_not_atomic_cex :
    (save_checkpoint_file { flow_id := "new" } "t1"
        (some (serializeCheckpoint cpPrev)) (some 0)).2 = some "" ∧
      some "" ≠ some (serializeCheckpoint cpPrev) := by
  constructor
  · decide
  · decide

/-- Claim C3 (amended): the checkpoint write is not atomic.  Opening the
state file in mode `"w"` truncates it, so a crash after `k` bytes leaves
the file holding the first `k` bytes of the new record (the empty string
for `k = 0`), never the previous checkpoint; and no checkpoint serializes
to the empty string, so the torn record is unloadable. -/
theorem checkpoint_write_truncates :
    ∀ (s : LongRunningState) (now : String) (old : Option String) (k : Nat),
      (save_checkpoint_file s now old (some k)).2 =
        some ⟨(serializeCheckpoint (save_checkpoint s now).2).data.take k⟩ ∧
      (save_checkpoint_file s now old (some 0)).2 = some "" ∧
      (∀ cp : Checkpoint, serializeCheckpoint cp ≠ "") := by
  intro s now old k
  refine ⟨rfl, rfl, ?_⟩
  intro cp h
  have h2 : (serializeCheckpoint cp).data = ("" : String).data := congrArg _ h
  rw [serializeCheckpoint] at h2
  exact List.cons_ne_nil _ _ h2

/-- Claim C4 is false on the code: `flaky_tool` reads the module-level
`call_counter`, so two invocations with identical arguments behave
differently depending on how many calls happened before — the first call
in the process raises, the immediately following call with the same
argument succeeds. -/
theorem flaky_tool_not_invocation_local_cex :
    flakyRaises (flaky_tool 0 "test") = true ∧
      flakyRaises (flaky_tool ((flaky_tool 0 "test").1) "test") = false := by
  decide

/-- Claim C4 (amended): the flaky tool's attempt counter is shared
process-global state, not invocation-local.  Every call increments the
shared counter; the call that brings it to 1 (i.e. the first call in the
process, and only that one) raises `ConnectionError`, and every later
call succeeds regardless of its arguments. -/
theorem flaky_tool_outcome_depends_on_global_counter :
    ∀ (c : Nat) (op : String),
      (flaky_tool c op).1 = c + 1 ∧
      (c = 0 → (flaky_tool c op).2 =
        Except.error "Simulated network error on first attempt!") ∧
      (c ≠ 0 → (flaky_tool c op).2 = Except.ok (flakySuccessMsg op (c + 1))) := by
  intro c op
  refine ⟨?_, ?_, ?_⟩
  · show (if c + 1 = 1 then _ else _ : Nat × Except String String).1 = c + 1
    split <;> rfl
  · intro h; simp [flaky_tool, h]
  · intro h
    have hc : c + 1 ≠ 1 := by omega
    simp [flaky_tool, hc]

/-- Witness for the amended C4: the second call in the process succeeds. -/
theorem flaky_tool_outcome_witness :
    (flaky_tool 1 "test").2 = Except.ok (flakySuccessMsg "test" 2) :=
  (flaky_tool_outcome_depends_on_global_counter 1 "test").2.2 (by decide)

/-- Claim C6: resuming an unknown instance fails before running any step.
With no stored checkpoint, or a stored checkpoint whose `flow_id` differs
from the requested id, the `--resume` branch runs no phase and exits with
code 1; with a matching checkpoint it runs the workflow and exits 0. -/
theorem resume_unknown_instance_exit_codes :
    ∀ (stored : Option Checkpoint) (requested t0 t1 t2 t3 t4 t5 : String),
      (stored = none →
        main_resume stored requested t0 t1 t2 t3 t4 t5 = (none, 1)) ∧
      (∀ cp, stored = some cp → cp.flow_id ≠ requested →
        main_resume stored requested t0 t1 t2 t3 t4 t5 = (none, 1)) ∧
      (∀ cp, stored = some cp → cp.flow_id = requested →
        main_resume stored requested t0 t1 t2 t3 t4 t5 =
          (some (resumableKickoff { cp.state with interrupted := false }
            t0 t1 t2 t3 t4 t5), 0)) := by
  intro stored requested t0 t1 t2 t3 t4 t5
  refine ⟨?_, ?_, ?_⟩
  · intro h; subst h; rfl
  · intro cp h hne; subst h; simp [main_resume, hne]
  · intro cp h heq; subst h; simp [main_resume, heq]

/-- Witness for C6: no checkpoint stored means exit code 1 and no run. -/
theorem resume_unknown_instance_witness :
    main_resume none "resume_x" "t0" "t1" "t2" "t3" "t4" "t5" = (none, 1) :=
  (resume_unknown_instance_exit_codes none "resume_x"
    "t0" "t1" "t2" "t3" "t4" "t5").1 rfl

/-- Claim C7 is false on the code: `save_checkpoint` stamps
`state.last_checkpoint` with `datetime.now()` on every call, so a second
call in succession (at a later wall-clock instant) changes the in-memory
state and the persisted record instead of being a no-op. -/
theorem save_checkpoint_not_idempotent_cex :
    save_checkpoint ((save_checkpoint { flow_id := "f" } "t1").1) "t2" ≠
      save_checkpoint ({ flow_id := "f" } : LongRunningState) "t1" := by
  decide

/-- Claim C7 (amended): `save_checkpoint` is idempotent only up to the
timestamp.  Repeating the save at the same instant is observably a no-op;
a repeat at a different instant changes exactly `last_checkpoint`, in both
the in-memory state and the persisted record. -/
theorem save_checkpoint_idempotent_at_fixed_time :
    ∀ (s : LongRunningState) (t t2 : String),
      save_checkpoint (save_checkpoint s t).1 t = save_checkpoint s t ∧
      (save_checkpoint (save_checkpoint s t).1 t2).1 =
        { (save_checkpoint s t).1 with last_checkpoint := t2 } ∧
      (save_checkpoint (save_checkpoint s t).1 t2).2 =
        { flow_id := s.flow_id,
          state := { (save_checkpoint s t).1 with last_checkpoint := t2 } } := by
  intro s t t2
  exact ⟨rfl, rfl, rfl⟩

/-- Claim C8: every `WorkflowState()` instantiation gets fresh,
independently-owned default containers (pydantic copies mutable field
defaults per instance).  For two instances built from defaults, the
references differ, both start empty, appending a history entry through
one is visible through it, and neither the history append nor a data
write through the first instance changes what the second instance sees. -/
theorem default_containers_independent :
    ∀ (h : Heap) (e : PyDict) (k v : String),
      (WorkflowState_new h).2.historyRef ≠
        (WorkflowState_new (WorkflowState_new h).1).2.historyRef ∧
      (WorkflowState_new h).2.dataRef ≠
        (WorkflowState_new (WorkflowState_new h).1).2.dataRef ∧
      readHistory (WorkflowState_new (WorkflowState_new h).1).1
        (WorkflowState_new h).2.historyRef = [] ∧
      readHistory (WorkflowState_new (WorkflowState_new h).1).1
        (WorkflowState_new (WorkflowState_new h).1).2.historyRef = [] ∧
      readHistory
        (heapAppendHistory (WorkflowState_new (WorkflowState_new h).1).1
          (WorkflowState_new h).2.historyRef e)
        (WorkflowState_new h).2.historyRef = [e] ∧
      readHistory
        (heapAppendHistory (WorkflowState_new (WorkflowState_new h).1).1
          (WorkflowState_new h).2.historyRef e)
        (WorkflowState_new (WorkflowState_new h).1).2.historyRef = [] ∧
      readData
        (heapSetData (WorkflowState_new (WorkflowState_new h).1).1
          (WorkflowState_new h).2.dataRef k v)
        (WorkflowState_new (WorkflowState_new h).1).2.dataRef = [] := by
  intro h e k v
  simp only [WorkflowState_new, readHistory, readData, heapAppendHistory,
    heapSetData]
  have hlen : (h.lists ++ [[]]).length = h.lists.length + 1 := by simp
  have hdlen : (h.dicts ++ [[]]).length = h.dicts.length + 1 := by simp
  have hfirst :
      (h.lists ++ [([] : List PyDict)] ++ [([] : List PyDict)]).getD
        h.lists.length [] = [] := by
    rw [List.getD_append _ _ _ _ (by simp), List.getD_append_right _ _ _ _ (by simp)]
    simp
  have hsecond :
      (h.lists ++ [([] : List PyDict)] ++ [([] : List PyDict)]).getD
        (h.lists.length + 1) [] = [] := by
    rw [List.getD_append_right _ _ _ _ (by simp)]
    simp
  have hdfirst :
      (h.dicts ++ [([] : PyDict)] ++ [([] : PyDict)]).getD
        h.dicts.length [] = [] := by
    rw [List.getD_append _ _ _ _ (by simp), List.getD_append_right _ _ _ _ (by simp)]
    simp
  refine ⟨by simp [hlen], by simp [hdlen], ?_, ?_, ?_, ?_, ?_⟩
  · simpa using hfirst
  · simpa [hlen] using hsecond
  · rw [getD_set_self _ _ _ _ (by simp)]
    simpa using congrArg (· ++ [e]) hfirst
  · rw [hlen]
    rw [getD_set_ne _ _ _ _ _ (by omega)]
    simpa using hsecond
  · rw [hdlen]
    rw [getD_set_ne _ _ _ _ _ (by omega)]
    rw [List.getD_append_right _ _ _ _ (by simp)]
    simp

/-- Claim C9: `SafeDivisionTool._run` is total — every call returns a
string and nothing raises.  With a zero divisor it returns the
division-by-zero error message; with a nonzero divisor it returns the
formatted report for `dividend / divisor`, and the reported value really
is the quotient (`divisor * (dividend / divisor) = dividend`). -/
theorem safe_division_total :
    ∀ d v : ℚ,
      (v = 0 → SafeDivisionTool_run d v = divisionByZeroMsg) ∧
      (v ≠ 0 → SafeDivisionTool_run d v = divisionReport d v (d / v)) ∧
      (v ≠ 0 → v * (d / v) = d) := by
  intro d v
  refine ⟨?_, ?_, ?_⟩
  · intro h; simp [SafeDivisionTool_run, h]
  · intro h; simp [SafeDivisionTool_run, h]
  · intro h; rw [mul_comm]; exact div_mul_cancel₀ d h

/-- Witness for C9 at `10 / 0` and `10 / 2`. -/
theorem safe_division_total_witness :
    SafeDivisionTool_run 10 0 = divisionByZeroMsg ∧
      SafeDivisionTool_run 10 2 = divisionReport 10 2 (10 / 2) :=
  ⟨(safe_division_total 10 0).1 rfl,
   (safe_division_total 10 2).2.1 (by norm_num)⟩

/-- Claim C10: `AuditLogger.get_logs` returns `[]` when the log file does
not exist; after any sequence of `log` calls starting from a missing
file, `get_logs None` returns every appended entry in append order, and
`get_logs event_type` returns exactly the entries whose stored
`"event_type"` field equals the filter, in append order. -/
theorem audit_get_logs_correct :
    ∀ (sid et : String) (etOpt : Option String) (calls : List LogCall),
      AuditLogger_get_logs none etOpt = [] ∧
      AuditLogger_get_logs (logAll sid none calls) none =
        calls.map (fun c => makeEntry c.now sid c.event_type c.data) ∧
      AuditLogger_get_logs (logAll sid none calls) (some et) =
        (calls.map (fun c => makeEntry c.now sid c.event_type c.data)).filter
          (fun e => dictGet e "event_type" = some et) := by
  intro sid et etOpt calls
  refine ⟨rfl, ?_, ?_⟩
  · cases calls with
    | nil => rfl
    | cons c rest =>
      simp [logAll, AuditLogger_log, logAll_some, AuditLogger_get_logs]
  · cases calls with
    | nil => rfl
    | cons c rest =>
      simp [logAll, AuditLogger_log, logAll_some, AuditLogger_get_logs]
